import Mathlib

/-!
Shallow embedding of the wellness-tracking core (state.js, analytics.js,
validators.js) of the repository, together with theorems settling the
frozen claims about its specification.

Modelling conventions:
* JS numbers are modelled as `Nat`/`Int`/`ℚ` (exact arithmetic).  Where the
  source rounds via `toFixed(1)` the model rounds exactly to the nearest
  tenth (ties up), matching the ECMAScript `toFixed` definition on the
  exact value.
* Mutation methods of `AppStateManager` become functions
  `AppState → ... → AppState × result`.
* The static catalogs (`CHALLENGES`, `BADGES` from config.js) and the
  initial document (`INITIAL_STATE`) are external configuration; the
  definitions are parameterised over them.
* Persistence, DOM, notifications and the observer bus are I/O layers
  outside the modelled core; event emission that claims talk about is
  modelled as a returned `Bool` flag.
-/

namespace SerPleno

/-- A goal as stored in `data.goals` (state.js `addGoal`): only the fields
the modelled operations read. -/
structure Goal where
  id : Nat
  title : String
  completed : Bool
deriving DecidableEq, Repr

/-- A journal entry as stored in `data.journalEntries`. -/
structure JournalEntry where
  id : Nat
  content : String
deriving DecidableEq, Repr

/-- A feeling record appended by `recordFeeling` (emotion plus ISO date). -/
structure Feeling where
  emotion : String
  date : String
deriving DecidableEq, Repr

/-- A `moodHistory` entry (`{date, mood}`), appended by `recordFeeling`. -/
structure MoodEntry where
  date : String
  mood : String
deriving DecidableEq, Repr

/-- `data.userProfile` of the wellness document. -/
structure UserProfile where
  xp : Nat
  level : Nat
  checkInStreak : Nat
  lastCheckInDate : Option String
  badges : List String
  completedChallenges : List Nat
deriving DecidableEq, Repr

/-- The wellness document (`this.data` of `AppStateManager`), restricted to
the collections the modelled operations touch. -/
structure AppState where
  userName : Option String
  userProfile : UserProfile
  goals : List Goal
  journalEntries : List JournalEntry
  feelings : List Feeling
  moodHistory : List MoodEntry
deriving DecidableEq, Repr

/-- A challenge of the static catalog (`CHALLENGES` in config.js):
`{id, title, description, xp}`, restricted to the fields the core reads. -/
structure Challenge where
  id : Nat
  xp : Nat
deriving DecidableEq, Repr

/-- `xpForNextLevel(level) = Math.floor(100 * Math.pow(1.2, level - 1))`
(state.js).  In exact arithmetic `⌊100·1.2^(level-1)⌋ = 100·6^(level-1) / 5^(level-1)`
with `Nat` (floor) division. -/
def xpForNextLevel (level : Nat) : Nat :=
  100 * 6 ^ (level - 1) / 5 ^ (level - 1)

/-- `awardBadge` (state.js), acting on the profile: push the id onto
`badges` unless already held.  The returned `Bool` is whether the
`badge:awarded` event fires, which the source does only when the id is new
*and* the badge exists in the badge-definition catalog `badgeDefs`. -/
def awardBadgeP (badgeDefs : List String) (p : UserProfile) (badgeId : String) :
    UserProfile × Bool :=
  if badgeId ∈ p.badges then (p, false)
  else ({ p with badges := p.badges ++ [badgeId] }, badgeId ∈ badgeDefs)

/-- `awardBadge` lifted to the document (the source mutates
`this.data.userProfile.badges`). -/
def awardBadge (badgeDefs : List String) (s : AppState) (badgeId : String) :
    AppState × Bool :=
  let r := awardBadgeP badgeDefs s.userProfile badgeId
  ({ s with userProfile := r.1 }, r.2)

theorem awardBadgeP_xp (d : List String) (p : UserProfile) (b : String) :
    ((awardBadgeP d p b).1).xp = p.xp := by
  unfold awardBadgeP; split <;> rfl

theorem awardBadgeP_level (d : List String) (p : UserProfile) (b : String) :
    ((awardBadgeP d p b).1).level = p.level := by
  unfold awardBadgeP; split <;> rfl

theorem awardBadgeP_checkInStreak (d : List String) (p : UserProfile) (b : String) :
    ((awardBadgeP d p b).1).checkInStreak = p.checkInStreak := by
  unfold awardBadgeP; split <;> rfl

theorem awardBadgeP_lastCheckInDate (d : List String) (p : UserProfile) (b : String) :
    ((awardBadgeP d p b).1).lastCheckInDate = p.lastCheckInDate := by
  unfold awardBadgeP; split <;> rfl

theorem awardBadgeP_completedChallenges (d : List String) (p : UserProfile) (b : String) :
    ((awardBadgeP d p b).1).completedChallenges = p.completedChallenges := by
  unfold awardBadgeP; split <;> rfl

theorem hundred_le_xpForNextLevel (level : Nat) : 100 ≤ xpForNextLevel level := by
  unfold xpForNextLevel
  rw [Nat.le_div_iff_mul_le (Nat.pos_pow_of_pos _ (by norm_num))]
  exact Nat.mul_le_mul_left 100 (Nat.pow_le_pow_left (by norm_num) _)

theorem xpForNextLevel_pos (level : Nat) : 0 < xpForNextLevel level :=
  lt_of_lt_of_le (by norm_num) (hundred_le_xpForNextLevel level)

/-- The body of one `checkForLevelUp` step (state.js): `level++`,
`xp -= requiredXp`, and award the `LEVEL_5` badge when the level becomes 5. -/
def levelUpOnce (badgeDefs : List String) (p : UserProfile) : UserProfile :=
  let p1 : UserProfile :=
    { p with level := p.level + 1, xp := p.xp - xpForNextLevel p.level }
  if p1.level = 5 then (awardBadgeP badgeDefs p1 "LEVEL_5").1 else p1

theorem levelUpOnce_level (d : List String) (p : UserProfile) :
    (levelUpOnce d p).level = p.level + 1 := by
  unfold levelUpOnce; dsimp only; split <;> simp [awardBadgeP_level]

theorem levelUpOnce_xp (d : List String) (p : UserProfile) :
    (levelUpOnce d p).xp = p.xp - xpForNextLevel p.level := by
  unfold levelUpOnce; dsimp only; split <;> simp [awardBadgeP_xp]

theorem levelUpOnce_checkInStreak (d : List String) (p : UserProfile) :
    (levelUpOnce d p).checkInStreak = p.checkInStreak := by
  unfold levelUpOnce; dsimp only; split <;> simp [awardBadgeP_checkInStreak]

theorem levelUpOnce_lastCheckInDate (d : List String) (p : UserProfile) :
    (levelUpOnce d p).lastCheckInDate = p.lastCheckInDate := by
  unfold levelUpOnce; dsimp only; split <;> simp [awardBadgeP_lastCheckInDate]

theorem levelUpOnce_completedChallenges (d : List String) (p : UserProfile) :
    (levelUpOnce d p).completedChallenges = p.completedChallenges := by
  unfold levelUpOnce; dsimp only; split <;> simp [awardBadgeP_completedChallenges]

theorem levelUpOnce_xp_lt (d : List String) (p : UserProfile)
    (h : xpForNextLevel p.level ≤ p.xp) : (levelUpOnce d p).xp < p.xp := by
  rw [levelUpOnce_xp]
  exact Nat.sub_lt (lt_of_lt_of_le (xpForNextLevel_pos _) h) (xpForNextLevel_pos _)

/-- `checkForLevelUp` (state.js): while enough XP is accumulated, perform
`levelUpOnce` and recurse for multiple level-ups. -/
def checkForLevelUp (badgeDefs : List String) (p : UserProfile) : UserProfile :=
  if xpForNextLevel p.level ≤ p.xp then
    let p2 := levelUpOnce badgeDefs p
    if xpForNextLevel p2.level ≤ p2.xp then checkForLevelUp badgeDefs p2 else p2
  else p
termination_by p.xp
decreasing_by
  exact levelUpOnce_xp_lt badgeDefs p (by assumption)

/-- `addXp` (state.js): no-op unless `amount > 0`, otherwise add and run
the leveling algorithm.  Only `userProfile` is touched. -/
def addXp (badgeDefs : List String) (s : AppState) (amount : Int) : AppState :=
  if amount ≤ 0 then s
  else
    { s with
      userProfile :=
        checkForLevelUp badgeDefs
          { s.userProfile with xp := s.userProfile.xp + amount.toNat } }

/-- Reference leveling computation, following the spec's words: repeatedly
subtract `xpForNextLevel level` and increment `level` while
`xp ≥ xpForNextLevel level`; returns the final `(level, xp)` pair. -/
def normalizeLevel (level xp : Nat) : Nat × Nat :=
  if xpForNextLevel level ≤ xp then normalizeLevel (level + 1) (xp - xpForNextLevel level)
  else (level, xp)
termination_by xp
decreasing_by
  exact Nat.sub_lt (lt_of_lt_of_le (xpForNextLevel_pos _) (by assumption))
    (xpForNextLevel_pos _)

theorem checkForLevelUp_eq_normalize_bounded (d : List String) :
    ∀ (n : Nat) (p : UserProfile), p.xp ≤ n →
      ((checkForLevelUp d p).level, (checkForLevelUp d p).xp) =
        normalizeLevel p.level p.xp := by
  intro n
  induction n with
  | zero =>
      intro p hp
      have h0 : p.xp = 0 := Nat.le_zero.mp hp
      have h1 : ¬ xpForNextLevel p.level ≤ p.xp := by
        rw [h0]
        intro h
        exact absurd (le_trans (hundred_le_xpForNextLevel _) h) (by norm_num)
      rw [checkForLevelUp, normalizeLevel]
      simp [h1]
  | succ n ih =>
      intro p hp
      by_cases h1 : xpForNextLevel p.level ≤ p.xp
      · rw [checkForLevelUp, normalizeLevel]
        simp only [h1, if_true]
        have hxp2 : (levelUpOnce d p).xp = p.xp - xpForNextLevel p.level :=
          levelUpOnce_xp d p
        have hlev2 : (levelUpOnce d p).level = p.level + 1 := levelUpOnce_level d p
        by_cases h2 : xpForNextLevel (levelUpOnce d p).level ≤ (levelUpOnce d p).xp
        · simp only [h2, if_true]
          have hle : (levelUpOnce d p).xp ≤ n := by
            have := levelUpOnce_xp_lt d p h1
            omega
          rw [ih (levelUpOnce d p) hle, hlev2, hxp2]
        · simp only [h2, if_false]
          rw [hlev2, hxp2] at h2
          rw [normalizeLevel]
          simp only [h2, if_false]
          rw [hlev2, hxp2]
      · rw [checkForLevelUp, normalizeLevel]
        simp [h1]

theorem checkForLevelUp_eq_normalize (d : List String) (p : UserProfile) :
    ((checkForLevelUp d p).level, (checkForLevelUp d p).xp) =
      normalizeLevel p.level p.xp :=
  checkForLevelUp_eq_normalize_bounded d p.xp p le_rfl

theorem checkForLevelUp_checkInStreak_bounded (d : List String) :
    ∀ (n : Nat) (p : UserProfile), p.xp ≤ n →
      (checkForLevelUp d p).checkInStreak = p.checkInStreak ∧
      (checkForLevelUp d p).lastCheckInDate = p.lastCheckInDate ∧
      (checkForLevelUp d p).completedChallenges = p.completedChallenges := by
  intro n
  induction n with
  | zero =>
      intro p hp
      have h0 : p.xp = 0 := Nat.le_zero.mp hp
      have h1 : ¬ xpForNextLevel p.level ≤ p.xp := by
        rw [h0]
        intro h
        exact absurd (le_trans (hundred_le_xpForNextLevel _) h) (by norm_num)
      rw [checkForLevelUp]
      simp [h1]
  | succ n ih =>
      intro p hp
      by_cases h1 : xpForNextLevel p.level ≤ p.xp
      · rw [checkForLevelUp]
        simp only [h1, if_true]
        by_cases h2 : xpForNextLevel (levelUpOnce d p).level ≤ (levelUpOnce d p).xp
        · simp only [h2, if_true]
          have hle : (levelUpOnce d p).xp ≤ n := by
            have := levelUpOnce_xp_lt d p h1
            omega
          obtain ⟨ha, hb, hc⟩ := ih (levelUpOnce d p) hle
          exact ⟨by rw [ha, levelUpOnce_checkInStreak],
                 by rw [hb, levelUpOnce_lastCheckInDate],
                 by rw [hc, levelUpOnce_completedChallenges]⟩
        · simp only [h2, if_false]
          exact ⟨levelUpOnce_checkInStreak d p, levelUpOnce_lastCheckInDate d p,
                 levelUpOnce_completedChallenges d p⟩
      · rw [checkForLevelUp]
        simp [h1]

theorem checkForLevelUp_preserves (d : List String) (p : UserProfile) :
    (checkForLevelUp d p).checkInStreak = p.checkInStreak ∧
    (checkForLevelUp d p).lastCheckInDate = p.lastCheckInDate ∧
    (checkForLevelUp d p).completedChallenges = p.completedChallenges :=
  checkForLevelUp_checkInStreak_bounded d p.xp p le_rfl

theorem normalizeLevel_snd_lt_bounded :
    ∀ (n level xp : Nat), xp ≤ n →
      (normalizeLevel level xp).2 < xpForNextLevel (normalizeLevel level xp).1 := by
  intro n
  induction n with
  | zero =>
      intro level xp hx
      have h0 : xp = 0 := Nat.le_zero.mp hx
      have h1 : ¬ xpForNextLevel level ≤ xp := by
        rw [h0]
        intro h
        exact absurd (le_trans (hundred_le_xpForNextLevel _) h) (by norm_num)
      rw [normalizeLevel]
      simp only [h1, if_false]
      omega
  | succ n ih =>
      intro level xp hx
      by_cases h1 : xpForNextLevel level ≤ xp
      · rw [normalizeLevel]
        simp only [h1, if_true]
        have hlt : xp - xpForNextLevel level < xp :=
          Nat.sub_lt (lt_of_lt_of_le (xpForNextLevel_pos _) h1) (xpForNextLevel_pos _)
        exact ih (level + 1) (xp - xpForNextLevel level) (by omega)
      · rw [normalizeLevel]
        simp only [h1, if_false]
        omega

theorem normalizeLevel_snd_lt (level xp : Nat) :
    (normalizeLevel level xp).2 < xpForNextLevel (normalizeLevel level xp).1 :=
  normalizeLevel_snd_lt_bounded xp level xp le_rfl

/-- Result of `updateCheckInStreak` (`{ continued, streak }`). -/
structure StreakResult where
  continued : Bool
  streak : Nat
deriving DecidableEq, Repr

/-- `updateCheckInStreak` (state.js).  The source derives `today` and
`yesterday` from the system clock (`new Date()` shifted by one day, both as
`YYYY-MM-DD` ISO strings); the model takes them as parameters.  If the last
check-in was today, return early unchanged with `continued:false`; else
increment the streak when the last check-in was yesterday, otherwise reset
it to 1; set `lastCheckInDate` to today and award the `STREAK_3`/`STREAK_7`
badges at exact streak matches. -/
def updateCheckInStreak (badgeDefs : List String) (today yesterday : String)
    (s : AppState) : AppState × StreakResult :=
  if s.userProfile.lastCheckInDate = some today then
    (s, ⟨false, s.userProfile.checkInStreak⟩)
  else
    let streak :=
      if s.userProfile.lastCheckInDate = some yesterday then
        s.userProfile.checkInStreak + 1
      else 1
    let p1 : UserProfile :=
      { s.userProfile with checkInStreak := streak, lastCheckInDate := some today }
    let p2 := if streak = 3 then (awardBadgeP badgeDefs p1 "STREAK_3").1 else p1
    let p3 := if streak = 7 then (awardBadgeP badgeDefs p2 "STREAK_7").1 else p2
    ({ s with userProfile := p3 }, ⟨true, streak⟩)

/-- Result of `recordFeeling` (`{ success, feeling }`). -/
structure RecordResult where
  success : Bool
  feeling : Feeling
deriving DecidableEq, Repr

/-- `recordFeeling` (state.js): append the feeling to `feelings` and a
matching `{date, mood}` record to `moodHistory`, update the check-in
streak, grant 10 XP, and report success.  There is no validation of
`emotion`.  (The extra `details` spread and the full ISO timestamp of the
source are outside the modelled fields.) -/
def recordFeeling (badgeDefs : List String) (today yesterday : String)
    (s : AppState) (emotion : String) : AppState × RecordResult :=
  let feeling : Feeling := ⟨emotion, today⟩
  let s1 := { s with feelings := s.feelings ++ [feeling] }
  let s2 := { s1 with moodHistory := s1.moodHistory ++ [⟨today, emotion⟩] }
  let s3 := (updateCheckInStreak badgeDefs today yesterday s2).1
  let s4 := addXp badgeDefs s3 10
  (s4, ⟨true, feeling⟩)

/-- Result of `completeChallenge`: success with the completed challenge, or
one of the two failure results of the source (`'Desafio já completado'`,
`'Desafio não encontrado'`). -/
inductive ChallengeResult where
  | alreadyCompleted
  | notFound
  | completed (c : Challenge)
deriving DecidableEq, Repr

/-- Whether a `ChallengeResult` is the success case. -/
def ChallengeResult.isSuccess : ChallengeResult → Bool
  | .completed _ => true
  | _ => false

/-- `completeChallenge` (state.js): fail if already completed, fail if the
id is not in the static challenge catalog; otherwise push the id, grant the
challenge's XP, and award `CHALLENGE_HERO` when every catalog challenge is
completed. -/
def completeChallenge (challenges : List Challenge) (badgeDefs : List String)
    (s : AppState) (challengeId : Nat) : AppState × ChallengeResult :=
  if challengeId ∈ s.userProfile.completedChallenges then (s, .alreadyCompleted)
  else
    match challenges.find? (fun c => c.id = challengeId) with
    | none => (s, .notFound)
    | some challenge =>
        let s1 :=
          { s with
            userProfile :=
              { s.userProfile with
                completedChallenges :=
                  s.userProfile.completedChallenges ++ [challengeId] } }
        let s2 := addXp badgeDefs s1 (challenge.xp : Int)
        let s3 :=
          if s2.userProfile.completedChallenges.length = challenges.length then
            (awardBadge badgeDefs s2 "CHALLENGE_HERO").1
          else s2
        (s3, .completed challenge)

/-- The structured result shape of Store mutations.  The source returns
plain objects; absent fields are modelled as `none` (e.g. `deleteGoal`
returns the bare `{ success: false }`, so both `errorKind` and `message`
are `none`). -/
structure MutationResult where
  success : Bool
  errorKind : Option String
  message : Option String
deriving DecidableEq, Repr

/-- `deleteGoal` (state.js): remove by id via `findIndex`/`splice`; when
the id is absent return the bare `{ success: false }`. -/
def deleteGoal (s : AppState) (goalId : Nat) : AppState × MutationResult :=
  match s.goals.findIdx? (fun g => g.id = goalId) with
  | none => (s, ⟨false, none, none⟩)
  | some i => ({ s with goals := s.goals.eraseIdx i }, ⟨true, none, none⟩)

/-- `deleteJournalEntry` (state.js): remove by id via `findIndex`/`splice`;
when the id is absent return the bare `{ success: false }`. -/
def deleteJournalEntry (s : AppState) (entryId : Nat) : AppState × MutationResult :=
  match s.journalEntries.findIdx? (fun e => e.id = entryId) with
  | none => (s, ⟨false, none, none⟩)
  | some i => ({ s with journalEntries := s.journalEntries.eraseIdx i }, ⟨true, none, none⟩)

/-- The validation rules used by `login` (validators.js `VALIDATION_RULES`). -/
inductive Rule where
  | required
  | minLength (n : Nat)

/-- `String.prototype.trim`: drop whitespace from both ends (structural
model over the character list). -/
def jsTrim (s : String) : String :=
  ⟨((s.data.dropWhile Char.isWhitespace).reverse.dropWhile
      Char.isWhitespace).reverse⟩

/-- One rule application (validators.js).  `required` fails when the value
is falsy or trims to the empty string; `minLength` fails when the value is
truthy and its *untrimmed* length is below the bound.  The returned string
is the error message. -/
def applyRule (value : String) : Rule → Option String
  | .required =>
      if value = "" ∨ jsTrim value = "" then some "Nome é obrigatório." else none
  | .minLength n =>
      if value ≠ "" ∧ value.length < n then
        some "Nome deve ter pelo menos caracteres."
      else none

/-- `Validator.validateField` (validators.js): collect the error messages
of every failing rule, in rule order. -/
def validateField (value : String) (rules : List Rule) : List String :=
  rules.filterMap (applyRule value)

/-- The browser-DOM `SANITIZERS.html` used by `Validator.sanitize`
(validators.js): writing the string into a text node and reading back
`innerHTML` escapes the HTML special characters of a text node. -/
def escapeHtmlChar (c : Char) : String :=
  if c = '&' then "&amp;"
  else if c = '<' then "&lt;"
  else if c = '>' then "&gt;"
  else String.singleton c

/-- See `escapeHtmlChar`. -/
def sanitizeHtml (str : String) : String :=
  String.join (str.toList.map (escapeHtmlChar))

/-- `login` (state.js): validate the name with the rules `required` and
`minLength 2`; on failure return the errors without touching the document;
on success replace the document by a fresh clone of the initial state
(parameter `initial`, `INITIAL_STATE` in config.js) with the sanitized
name as `userName`.  The returned list is the validation errors (empty on
success). -/
def login (initial : AppState) (s : AppState) (userName : String) :
    AppState × List String :=
  let validation := validateField userName [.required, .minLength 2]
  if validation ≠ [] then (s, validation)
  else ({ initial with userName := some (sanitizeHtml userName) }, [])

/-- Exact model of `Number.prototype.toFixed(1)`: round to the nearest
tenth, ties towards the larger value (the ECMAScript rule for picking `n`),
returned as the rational the display string denotes.  (The values compared
in the source are the `toFixed` strings, which numeric comparison coerces
back to exactly this number.) -/
def toFixed1 (q : ℚ) : ℚ :=
  (⌊q * 10 + 1 / 2⌋ : ℤ) / 10

/-- The mood map `{pessimo:1, ruim:2, neutro:3, bom:4, otimo:5, feliz:5}`
as a partial lookup (`moodMap[label]` is `undefined` off the table). -/
def moodMap (mood : String) : Option ℚ :=
  if mood = "pessimo" then some 1
  else if mood = "ruim" then some 2
  else if mood = "neutro" then some 3
  else if mood = "bom" then some 4
  else if mood = "otimo" then some 5
  else if mood = "feliz" then some 5
  else none

/-- `moodMap[entry.mood] || 3` (state.js `calculateAverageMood`): the
table value, defaulting to 3 (`neutro`) for unknown labels (no table value
is falsy, so `|| 3` fires exactly on missing keys). -/
def moodValue (mood : String) : ℚ :=
  (moodMap mood).getD 3

/-- The set of known mood labels. -/
def moodLabels : List String :=
  ["pessimo", "ruim", "neutro", "bom", "otimo", "feliz"]

/-- `calculateAverageMood` (state.js): `0` when `moodHistory` is empty,
otherwise the mean of the mapped mood values `toFixed(1)` (the source
renders the mean to a 1-decimal display string; the model returns the
rational that string denotes). -/
def calculateAverageMood (s : AppState) : ℚ :=
  if s.moodHistory = [] then 0
  else
    toFixed1 ((s.moodHistory.map (fun entry => moodValue entry.mood)).sum /
      (s.moodHistory.length : ℚ))

/-- `calculateAverage` (analytics.js): 0 on the empty list, else the mean. -/
def calculateAverage (numbers : List ℚ) : ℚ :=
  if numbers = [] then 0 else numbers.sum / (numbers.length : ℚ)

/-- The radicand of `calculateStdDev` (analytics.js): the mean of the
squared deviations from the mean (population variance). -/
def squareDiffsMean (numbers : List ℚ) : ℚ :=
  calculateAverage (numbers.map (fun n => (n - calculateAverage numbers) ^ 2))

/-- `calculateStdDev` (analytics.js): 0 on the empty list, else
`Math.sqrt` of the population variance. -/
noncomputable def calculateStdDev (numbers : List ℚ) : ℝ :=
  if numbers = [] then 0 else Real.sqrt ((squareDiffsMean numbers : ℚ) : ℝ)

/-- The trend values returned by `detectTrend` (analytics.js). -/
inductive Trend where
  | insufficient_data
  | stable
  | improving
  | declining
deriving DecidableEq, Repr

/-- `detectTrend` (analytics.js): with fewer than 3 values report
`insufficient_data`; otherwise split at `floor(n/2)` and compare the means
of the two halves against the `0.3` threshold. -/
def detectTrend (values : List ℚ) : Trend :=
  if values.length < 3 then .insufficient_data
  else
    let firstHalf := values.take (values.length / 2)
    let secondHalf := values.drop (values.length / 2)
    let difference := calculateAverage secondHalf - calculateAverage firstHalf
    if abs difference < 3 / 10 then .stable
    else if 0 < difference then .improving
    else .declining

/-- The fields of the `analyzeMoodPatterns` result that drive
recommendations: `hasData`, the (rounded) trailing-7 mean `avg7Days`, and
the trend. -/
structure MoodAnalysis where
  hasData : Bool
  avg7Days : ℚ
  trend : Trend
deriving DecidableEq, Repr

/-- `analyzeMoodPatterns` (analytics.js), restricted to the fields above:
`hasData:false` with fewer than 3 `moodHistory` entries; otherwise map the
trailing 7 entries through the mood table, report the `toFixed(1)` mean
and the trend.  The source looks the label up with no default
(`moodMap[m.mood]`, NaN-propagating for unknown labels); the model uses
the total `moodValue` map, and theorems about this function restrict the
document to known labels, on which the two agree.  On the `hasData:false`
branch the source returns no `avg7Days`/`trend` at all (every consumer
checks `hasData` first); the model fills in `0` and `insufficient_data`. -/
def analyzeMoodPatterns (s : AppState) : MoodAnalysis :=
  if s.moodHistory.length < 3 then ⟨false, 0, .insufficient_data⟩
  else
    let last7Days := s.moodHistory.drop (s.moodHistory.length - 7)
    let values := last7Days.map (fun m => moodValue m.mood)
    ⟨true, toFixed1 (calculateAverage values), detectTrend values⟩

/-- An insight record (`{type, message, icon}`), identified here by its
`type` and `icon` (the self-describing `message` strings are display
text). -/
structure Insight where
  type : String
  icon : String
deriving DecidableEq, Repr

/-- `generateProductivityInsights(goalRate, challengeRate)` (analytics.js):
`trophy` when the goal rate is at least 70, else `target` when it is below
30; `award` when the challenge rate is at least 50.  The arguments the
source passes are the rounded `toFixed(1)` rates. -/
def generateProductivityInsights (goalRate challengeRate : ℚ) : List Insight :=
  (if 70 ≤ goalRate then [⟨"positive", "trophy"⟩]
   else if goalRate < 30 then [⟨"info", "target"⟩]
   else []) ++
  (if 50 ≤ challengeRate then [⟨"positive", "award"⟩] else [])

/-- The fields of the `analyzeProductivity` result that drive insights and
recommendations. -/
structure ProductivityAnalysis where
  totalGoals : Nat
  completedGoals : Nat
  goalCompletionRate : ℚ
  challengeCompletionRate : ℚ
  insights : List Insight
deriving DecidableEq, Repr

/-- `analyzeProductivity` (analytics.js): the goal completion rate is
`(completed/total*100).toFixed(1)` when there are goals and the number `0`
otherwise; the challenge completion rate is the `toFixed(1)` percentage
over the full static catalog.  (With an empty catalog the source divides
by zero, producing NaN; the claims only concern nonempty catalogs, on
which `ℚ` division agrees.) -/
def analyzeProductivity (challenges : List Challenge) (s : AppState) :
    ProductivityAnalysis :=
  let totalGoals := s.goals.length
  let completedGoals := (s.goals.filter (fun g => g.completed)).length
  let goalCompletionRate : ℚ :=
    if 0 < totalGoals then
      toFixed1 ((completedGoals : ℚ) / (totalGoals : ℚ) * 100)
    else 0
  let challengeCompletionRate : ℚ :=
    toFixed1 ((s.userProfile.completedChallenges.length : ℚ) /
      (challenges.length : ℚ) * 100)
  { totalGoals := totalGoals
    completedGoals := completedGoals
    goalCompletionRate := goalCompletionRate
    challengeCompletionRate := challengeCompletionRate
    insights := generateProductivityInsights goalCompletionRate challengeCompletionRate }

/-- The fields of the `analyzeEngagement` result that
`generateRecommendations` reads.  The engagement analysis itself is
clock-dependent (it filters timestamps against "now minus 30 days"), so
theorems quantify over it. -/
structure EngagementAnalysis where
  checkInStreak : Nat
  engagementRate : ℚ
deriving DecidableEq, Repr

/-- A recommendation record (`{priority, title, description, action}`),
identified here by its `priority` and `action` (the title/description are
display text). -/
structure Recommendation where
  priority : String
  action : Option String
deriving DecidableEq, Repr

/-- `generateRecommendations(mood, productivity, engagement)`
(analytics.js): high priority when mood data exists and the (rounded)
7-day mean is below 3; medium when the (rounded) goal completion rate is
below 30 and goals exist; medium when the streak is 0 or the engagement
rate is below 30; low when the mood trend is improving. -/
def generateRecommendations (mood : MoodAnalysis)
    (productivity : ProductivityAnalysis) (engagement : EngagementAnalysis) :
    List Recommendation :=
  (if mood.hasData ∧ mood.avg7Days < 3 then
     [⟨"high", some "schedule_appointment"⟩]
   else []) ++
  (if productivity.goalCompletionRate < 30 ∧ 0 < productivity.totalGoals then
     [⟨"medium", some "view_goals"⟩]
   else []) ++
  (if engagement.checkInStreak = 0 ∨ engagement.engagementRate < 30 then
     [⟨"medium", some "record_feeling"⟩]
   else []) ++
  (if mood.hasData ∧ mood.trend = .improving then [⟨"low", none⟩] else [])

/-! ### Helper lemmas on the state-level operations -/

theorem addXp_completedChallenges (d : List String) (s : AppState) (a : Int) :
    (addXp d s a).userProfile.completedChallenges =
      s.userProfile.completedChallenges := by
  unfold addXp
  split
  · rfl
  · exact (checkForLevelUp_preserves d _).2.2

theorem addXp_checkInStreak (d : List String) (s : AppState) (a : Int) :
    (addXp d s a).userProfile.checkInStreak = s.userProfile.checkInStreak := by
  unfold addXp
  split
  · rfl
  · exact (checkForLevelUp_preserves d _).1

theorem addXp_lastCheckInDate (d : List String) (s : AppState) (a : Int) :
    (addXp d s a).userProfile.lastCheckInDate = s.userProfile.lastCheckInDate := by
  unfold addXp
  split
  · rfl
  · exact (checkForLevelUp_preserves d _).2.1

theorem addXp_collections (d : List String) (s : AppState) (a : Int) :
    (addXp d s a).feelings = s.feelings ∧
    (addXp d s a).moodHistory = s.moodHistory ∧
    (addXp d s a).goals = s.goals ∧
    (addXp d s a).journalEntries = s.journalEntries := by
  unfold addXp
  split <;> exact ⟨rfl, rfl, rfl, rfl⟩

theorem addXp_level_xp (d : List String) (s : AppState) (a : Int) (h : 0 < a) :
    ((addXp d s a).userProfile.level, (addXp d s a).userProfile.xp) =
      normalizeLevel s.userProfile.level (s.userProfile.xp + a.toNat) := by
  have hneg : ¬ a ≤ 0 := not_le.mpr h
  unfold addXp
  simp only [hneg, if_false]
  exact checkForLevelUp_eq_normalize d _

theorem updateCheckInStreak_profile (d : List String) (today yesterday : String)
    (s : AppState) :
    (updateCheckInStreak d today yesterday s).1.userProfile.xp = s.userProfile.xp ∧
    (updateCheckInStreak d today yesterday s).1.userProfile.level =
      s.userProfile.level ∧
    (updateCheckInStreak d today yesterday s).1.userProfile.lastCheckInDate =
      some today ∧
    (updateCheckInStreak d today yesterday s).1.userProfile.checkInStreak =
      (if s.userProfile.lastCheckInDate = some today then s.userProfile.checkInStreak
       else if s.userProfile.lastCheckInDate = some yesterday then
         s.userProfile.checkInStreak + 1
       else 1) ∧
    (updateCheckInStreak d today yesterday s).1.feelings = s.feelings ∧
    (updateCheckInStreak d today yesterday s).1.moodHistory = s.moodHistory ∧
    (updateCheckInStreak d today yesterday s).1.userProfile.completedChallenges =
      s.userProfile.completedChallenges := by
  by_cases h : s.userProfile.lastCheckInDate = some today
  · have e : updateCheckInStreak d today yesterday s =
        (s, ⟨false, s.userProfile.checkInStreak⟩) := by
      unfold updateCheckInStreak
      rw [if_pos h]
    rw [e]
    exact ⟨rfl, rfl, h, by rw [if_pos h], rfl, rfl, rfl⟩
  · unfold updateCheckInStreak
    rw [if_neg h]
    rw [if_neg h]
    dsimp only
    refine ⟨?_, ?_, ?_, ?_, rfl, rfl, ?_⟩ <;>
      split_ifs <;>
        simp [awardBadgeP_xp, awardBadgeP_level, awardBadgeP_lastCheckInDate,
          awardBadgeP_checkInStreak, awardBadgeP_completedChallenges, h]

/-! ### Fixture documents for witnesses and counterexamples -/

/-- A fresh user profile (xp 0, level 1, no badges). -/
def freshProfile : UserProfile :=
  { xp := 0, level := 1, checkInStreak := 0, lastCheckInDate := none,
    badges := [], completedChallenges := [] }

/-- A fresh document. -/
def freshState : AppState :=
  { userName := none, userProfile := freshProfile, goals := [],
    journalEntries := [], feelings := [], moodHistory := [] }

/-! ### Claim C1 -/

/-- C1 as stated is false: `addXp` is a no-op for `amount = 0` (the source
returns early when `!amount || amount <= 0`), so with starting `xp = 100`,
`level = 1` the resulting profile keeps `xp = 100 ≥ xpForNextLevel(1) = 100`. -/
theorem addXp_claim_counterexample :
    1 ≤ freshState.userProfile.level ∧
    (addXp [] { freshState with
        userProfile := { freshProfile with xp := 100 } } 0).userProfile.xp = 100 ∧
    xpForNextLevel
      (addXp [] { freshState with
          userProfile := { freshProfile with xp := 100 } } 0).userProfile.level = 100 ∧
    ¬ ((addXp [] { freshState with
          userProfile := { freshProfile with xp := 100 } } 0).userProfile.xp <
        xpForNextLevel
          (addXp [] { freshState with
              userProfile := { freshProfile with xp := 100 } } 0).userProfile.level) := by
  refine ⟨by decide, rfl, rfl, ?_⟩
  intro hlt
  exact absurd hlt (by decide)

/-- C1 (amended): for every profile with `level ≥ 1` and every
`amount > 0`, after `addXp(amount)` the profile satisfies
`xp < xpForNextLevel(level)`, and `(level, xp)` equals the reference value
obtained by adding `amount` to `xp` and then repeatedly subtracting
`xpForNextLevel(level)` and incrementing `level` while
`xp ≥ xpForNextLevel(level)` — including multi-level grants.  (For
`amount ≤ 0` the source returns without normalizing, which refutes the
unrestricted claim.) -/
theorem addXp_normalizes (d : List String) (s : AppState) (amount : Int)
    (_hlevel : 1 ≤ s.userProfile.level) (hamount : 0 < amount) :
    (addXp d s amount).userProfile.xp <
      xpForNextLevel (addXp d s amount).userProfile.level ∧
    ((addXp d s amount).userProfile.level, (addXp d s amount).userProfile.xp) =
      normalizeLevel s.userProfile.level (s.userProfile.xp + amount.toNat) := by
  have h1 := addXp_level_xp d s amount hamount
  have hl := congrArg Prod.fst h1
  have hx := congrArg Prod.snd h1
  dsimp only at hl hx
  refine ⟨?_, h1⟩
  rw [hl, hx]
  exact normalizeLevel_snd_lt _ _

/-- Witness for C1's amended theorem: a single grant of 250 XP from a fresh
profile (crossing levels 1→2→3). -/
theorem addXp_normalizes_witness :
    (addXp [] freshState 250).userProfile.xp <
      xpForNextLevel (addXp [] freshState 250).userProfile.level ∧
    ((addXp [] freshState 250).userProfile.level,
      (addXp [] freshState 250).userProfile.xp) =
      normalizeLevel freshState.userProfile.level
        (freshState.userProfile.xp + (250 : Int).toNat) :=
  addXp_normalizes [] freshState 250 (by decide) (by decide)

/-! ### Claim C2 -/

/-- C2: `updateCheckInStreak` (as invoked by `recordFeeling`) leaves the
streak unchanged and reports `continued:false` when the last check-in was
today; increments the streak by exactly 1 when it was yesterday; resets it
to 1 on any other value (including `null`); and always ends with
`lastCheckInDate = today`.  `today`/`yesterday` are the system-clock dates
of the source, distinct by construction. -/
theorem updateCheckInStreak_spec (d : List String) (today yesterday : String)
    (s : AppState) (hdays : yesterday ≠ today) :
    (updateCheckInStreak d today yesterday s).1.userProfile.lastCheckInDate =
      some today ∧
    (s.userProfile.lastCheckInDate = some today →
      (updateCheckInStreak d today yesterday s).1 = s ∧
      (updateCheckInStreak d today yesterday s).2.continued = false ∧
      (updateCheckInStreak d today yesterday s).1.userProfile.checkInStreak =
        s.userProfile.checkInStreak) ∧
    (s.userProfile.lastCheckInDate = some yesterday →
      (updateCheckInStreak d today yesterday s).1.userProfile.checkInStreak =
        s.userProfile.checkInStreak + 1) ∧
    (s.userProfile.lastCheckInDate ≠ some today →
      s.userProfile.lastCheckInDate ≠ some yesterday →
      (updateCheckInStreak d today yesterday s).1.userProfile.checkInStreak = 1) := by
  obtain ⟨-, -, hlast, hstreak, -, -, -⟩ :=
    updateCheckInStreak_profile d today yesterday s
  refine ⟨hlast, fun h => ⟨?_, ?_, ?_⟩, fun h => ?_, fun h h' => ?_⟩
  · simp [updateCheckInStreak, h]
  · simp [updateCheckInStreak, h]
  · rw [hstreak]; simp [h]
  · rw [hstreak]
    simp [h, hdays]
  · rw [hstreak]
    simp [h, h']

/-- A document whose last check-in was 2024-01-01 with a streak of 1. -/
def yesterdayState : AppState :=
  { freshState with
    userProfile :=
      { freshProfile with
        checkInStreak := 1
        lastCheckInDate := some "2024-01-01" } }

/-- Witness for C2 at a concrete document whose last check-in was
yesterday: the streak increments from 1 to 2. -/
theorem updateCheckInStreak_spec_witness :
    (updateCheckInStreak [] "2024-01-02" "2024-01-01"
      yesterdayState).1.userProfile.checkInStreak = 2 :=
  (updateCheckInStreak_spec [] "2024-01-02" "2024-01-01" yesterdayState
    (by decide)).2.2.1 rfl

/-! ### Claim C4 -/

/-- C4: `awardBadge` is idempotent.  On any document whose badge list has
no duplicates (the invariant the claim itself asserts), awarding the same
id twice leaves it in `badges` exactly once, the `badge:awarded` event
does not fire on the second call, and one award preserves the no-duplicate
invariant. -/
theorem awardBadge_idempotent (d : List String) (s : AppState) (b : String)
    (h : s.userProfile.badges.Nodup) :
    (awardBadge d (awardBadge d s b).1 b).1.userProfile.badges.count b = 1 ∧
    (awardBadge d (awardBadge d s b).1 b).2 = false ∧
    (awardBadge d s b).1.userProfile.badges.Nodup := by
  by_cases hb : b ∈ s.userProfile.badges
  · have e : awardBadge d s b = (s, false) := by
      unfold awardBadge awardBadgeP
      rw [if_pos hb]
    rw [e]
    simp only
    rw [e]
    exact ⟨List.count_eq_one_of_mem h hb, rfl, h⟩
  · have e : awardBadge d s b =
        ({ s with userProfile :=
            { s.userProfile with badges := s.userProfile.badges ++ [b] } },
          decide (b ∈ d)) := by
      unfold awardBadge awardBadgeP
      rw [if_neg hb]
    have hmem : b ∈ s.userProfile.badges ++ [b] := by simp
    have e2 : awardBadge d
        { s with userProfile :=
            { s.userProfile with badges := s.userProfile.badges ++ [b] } } b =
        ({ s with userProfile :=
            { s.userProfile with badges := s.userProfile.badges ++ [b] } },
          false) := by
      unfold awardBadge awardBadgeP
      rw [if_pos hmem]
    rw [e]
    simp only
    rw [e2]
    refine ⟨?_, rfl, ?_⟩
    · simp only
      rw [List.count_append, List.count_eq_zero_of_not_mem hb]
      simp
    · simp only [List.nodup_append]
      exact ⟨h, List.nodup_singleton b, by simpa using hb⟩

/-- Witness for C4 on a fresh document and a catalogued badge id. -/
theorem awardBadge_idempotent_witness :
    (awardBadge ["LEVEL_5"] (awardBadge ["LEVEL_5"] freshState "LEVEL_5").1
        "LEVEL_5").1.userProfile.badges.count "LEVEL_5" = 1 :=
  (awardBadge_idempotent ["LEVEL_5"] freshState "LEVEL_5" (by decide)).1

/-! ### Claim C5 -/

theorem awardBadge_completedChallenges (d : List String) (s : AppState) (b : String) :
    (awardBadge d s b).1.userProfile.completedChallenges =
      s.userProfile.completedChallenges := by
  unfold awardBadge
  exact awardBadgeP_completedChallenges d s.userProfile b

theorem completeChallenge_success_mem (ch : List Challenge) (d : List String)
    (s : AppState) (challengeId : Nat)
    (h1 : challengeId ∉ s.userProfile.completedChallenges)
    (c : Challenge) (hf : ch.find? (fun c => c.id = challengeId) = some c) :
    challengeId ∈
      (completeChallenge ch d s challengeId).1.userProfile.completedChallenges := by
  unfold completeChallenge
  rw [if_neg h1, hf]
  dsimp only
  split
  · rw [awardBadge_completedChallenges, addXp_completedChallenges]
    simp
  · rw [addXp_completedChallenges]
    simp

/-- C5: `completeChallenge` is exactly-once.  A call for an id already in
`completedChallenges` fails with the already-completed result and leaves
the document unchanged; a call for an id absent from the static challenge
catalog fails with the not-found result and leaves the document unchanged;
and a second call for the same id always fails (returning no success and
leaving the first call's document — hence its XP — unchanged). -/
theorem completeChallenge_exactly_once (ch : List Challenge) (d : List String)
    (s : AppState) (challengeId : Nat) :
    (challengeId ∈ s.userProfile.completedChallenges →
      completeChallenge ch d s challengeId = (s, .alreadyCompleted)) ∧
    (challengeId ∉ s.userProfile.completedChallenges →
      ch.find? (fun c => c.id = challengeId) = none →
      completeChallenge ch d s challengeId = (s, .notFound)) ∧
    (completeChallenge ch d (completeChallenge ch d s challengeId).1
        challengeId).1 =
      (completeChallenge ch d s challengeId).1 ∧
    (completeChallenge ch d (completeChallenge ch d s challengeId).1
        challengeId).2.isSuccess = false := by
  have already : ∀ t : AppState, challengeId ∈ t.userProfile.completedChallenges →
      completeChallenge ch d t challengeId = (t, .alreadyCompleted) := by
    intro t ht
    unfold completeChallenge
    rw [if_pos ht]
  have notfound : ∀ t : AppState, challengeId ∉ t.userProfile.completedChallenges →
      ch.find? (fun c => c.id = challengeId) = none →
      completeChallenge ch d t challengeId = (t, .notFound) := by
    intro t ht hf
    unfold completeChallenge
    rw [if_neg ht, hf]
  refine ⟨already s, notfound s, ?_⟩
  by_cases h1 : challengeId ∈ s.userProfile.completedChallenges
  · rw [already s h1]
    rw [already s h1]
    exact ⟨rfl, rfl⟩
  · cases hf : ch.find? (fun c => c.id = challengeId) with
    | none =>
        rw [notfound s h1 hf]
        rw [notfound s h1 hf]
        exact ⟨rfl, rfl⟩
    | some c =>
        have hmem := completeChallenge_success_mem ch d s challengeId h1 c hf
        rw [already _ hmem]
        exact ⟨rfl, rfl⟩

/-- Witness for C5: completing the only catalog challenge from a fresh
document, then completing it again, fails the second time without changing
the document. -/
theorem completeChallenge_exactly_once_witness :
    (completeChallenge [⟨1, 40⟩] []
        (completeChallenge [⟨1, 40⟩] [] freshState 1).1 1).2.isSuccess = false :=
  (completeChallenge_exactly_once [⟨1, 40⟩] [] freshState 1).2.2.2

/-! ### Claim C7 -/

/-- A document with a logged-in user, distinct from the fresh document. -/
def loggedInState : AppState := { freshState with userName := some "old" }

/-- C7 as stated is false: the `minLength` rule of validators.js checks the
*untrimmed* length (`String(value).length < minLength`), so the name
`" a"` — whose trimmed length is 1 — passes validation and `login`
resets the document and sets the user name instead of failing. -/
theorem login_claim_counterexample :
    (jsTrim " a").length < 2 ∧
    (login freshState loggedInState " a").2 = [] ∧
    (login freshState loggedInState " a").1 =
      { freshState with userName := some " a" } := by
  refine ⟨by decide, by decide, by decide⟩

/-- C7 (amended): `login(name)` returns a validation failure and leaves the
document completely unchanged exactly for names that are empty, trim to the
empty string, or have *untrimmed* length below 2; for every other name it
resets the document to the initial state and sets `userName` to the
sanitized name.  (The source checks `minLength` on the raw name, so names
with trimmed length < 2 but raw length ≥ 2, such as `" a"`, succeed —
refuting the claim, which predicates failure on the trimmed length.) -/
theorem validateField_login_eq (name : String) :
    validateField name [.required, .minLength 2] =
      (if name = "" ∨ jsTrim name = "" then ["Nome é obrigatório."] else []) ++
      (if name ≠ "" ∧ name.length < 2 then
        ["Nome deve ter pelo menos caracteres."]
      else []) := by
  unfold validateField applyRule
  simp only [List.filterMap_cons, List.filterMap_nil]
  split_ifs <;> simp_all

theorem login_spec (initial s : AppState) (name : String) :
    ((name = "" ∨ jsTrim name = "" ∨ name.length < 2) →
      (login initial s name).1 = s ∧ (login initial s name).2 ≠ []) ∧
    (jsTrim name ≠ "" → 2 ≤ name.length →
      (login initial s name).1 =
        { initial with userName := some (sanitizeHtml name) } ∧
      (login initial s name).2 = []) := by
  have hv := validateField_login_eq name
  constructor
  · intro h
    have hne : validateField name [.required, .minLength 2] ≠ [] := by
      rw [hv]
      rcases h with h | h | h
      · simp [h]
      · simp [h]
      · by_cases h0 : name = ""
        · simp [h0]
        · simp [h0, h]
    unfold login
    rw [if_pos hne]
    exact ⟨rfl, hne⟩
  · intro ht hl
    have hempty : validateField name [.required, .minLength 2] = [] := by
      rw [hv]
      have h1 : ¬ (name = "" ∨ jsTrim name = "") := by
        rintro (h | h)
        · rw [h] at ht
          exact ht rfl
        · exact ht h
      have h2 : ¬ (name ≠ "" ∧ name.length < 2) := by
        rintro ⟨-, hlt⟩
        omega
      simp [h1, h2]
    unfold login
    rw [hempty]
    simp

/-- Witness for C7's amended theorem: `login("ab")` succeeds and installs
the fresh document with the (unchanged by sanitization) name. -/
theorem login_spec_witness :
    (login freshState loggedInState "ab").1 =
      { freshState with userName := some (sanitizeHtml "ab") } ∧
    (login freshState loggedInState "ab").2 = [] :=
  (login_spec freshState loggedInState "ab").2 (by decide) (by decide)

/-! ### Claim C8 -/

/-- C8 as stated is false: on an absent id, `deleteGoal` and
`deleteJournalEntry` return the bare `{ success: false }` — carrying
neither an error kind nor a message — though the state is indeed
untouched. -/
theorem delete_bare_failure_counterexample :
    (deleteGoal freshState 1).2.success = false ∧
    (deleteGoal freshState 1).2.errorKind = none ∧
    (deleteGoal freshState 1).2.message = none ∧
    (deleteGoal freshState 1).1 = freshState ∧
    (deleteJournalEntry freshState 1).2.success = false ∧
    (deleteJournalEntry freshState 1).2.errorKind = none ∧
    (deleteJournalEntry freshState 1).2.message = none ∧
    (deleteJournalEntry freshState 1).1 = freshState := by
  refine ⟨rfl, rfl, rfl, rfl, rfl, rfl, rfl, rfl⟩

/-- C8 (amended): when the referenced id is absent, `deleteGoal` and
`deleteJournalEntry` return a structured failure result with
`success:false` but carrying *no* error kind and *no* message, and leave
the state untouched (the claimed uniform kind+message failure shape does
not hold for these two operations). -/
theorem delete_absent_spec (s : AppState) (id : Nat) :
    (s.goals.findIdx? (fun g => g.id = id) = none →
      deleteGoal s id = (s, ⟨false, none, none⟩)) ∧
    (s.journalEntries.findIdx? (fun e => e.id = id) = none →
      deleteJournalEntry s id = (s, ⟨false, none, none⟩)) := by
  constructor <;> intro h
  · simp [deleteGoal, h]
  · simp [deleteJournalEntry, h]

/-- Witness for C8's amended theorem on the fresh (empty) document. -/
theorem delete_absent_spec_witness :
    deleteGoal freshState 1 = (freshState, ⟨false, none, none⟩) :=
  (delete_absent_spec freshState 1).1 rfl

/-! ### Claim C9 -/

/-- C9: `recordFeeling` never fails.  For *every* emotion string — the
source performs no validation of the label — the call reports success,
appends exactly one entry to `feelings` and one matching `{date, mood}`
entry to `moodHistory`, updates the streak (per the streak algorithm,
with `lastCheckInDate` ending at today), and grants 10 XP (the profile's
`(level, xp)` is the leveling normalization of the old values plus 10). -/
theorem recordFeeling_never_fails (d : List String) (today yesterday : String)
    (s : AppState) (emotion : String) :
    (recordFeeling d today yesterday s emotion).2.success = true ∧
    (recordFeeling d today yesterday s emotion).2.feeling = ⟨emotion, today⟩ ∧
    (recordFeeling d today yesterday s emotion).1.feelings =
      s.feelings ++ [⟨emotion, today⟩] ∧
    (recordFeeling d today yesterday s emotion).1.moodHistory =
      s.moodHistory ++ [⟨today, emotion⟩] ∧
    (recordFeeling d today yesterday s emotion).1.userProfile.lastCheckInDate =
      some today ∧
    (recordFeeling d today yesterday s emotion).1.userProfile.checkInStreak =
      (if s.userProfile.lastCheckInDate = some today then
        s.userProfile.checkInStreak
      else if s.userProfile.lastCheckInDate = some yesterday then
        s.userProfile.checkInStreak + 1
      else 1) ∧
    ((recordFeeling d today yesterday s emotion).1.userProfile.level,
      (recordFeeling d today yesterday s emotion).1.userProfile.xp) =
      normalizeLevel s.userProfile.level (s.userProfile.xp + 10) := by
  unfold recordFeeling
  dsimp only
  set s2 : AppState :=
    { s with
      feelings := s.feelings ++ [⟨emotion, today⟩]
      moodHistory := s.moodHistory ++ [⟨today, emotion⟩] } with hs2
  obtain ⟨hxp, hlevel, hlast, hstreak, hfe, hmo, -⟩ :=
    updateCheckInStreak_profile d today yesterday s2
  set s3 : AppState := (updateCheckInStreak d today yesterday s2).1 with hs3
  obtain ⟨haf, ham, -, -⟩ := addXp_collections d s3 10
  refine ⟨rfl, rfl, ?_, ?_, ?_, ?_, ?_⟩
  · rw [haf, hfe]
  · rw [ham, hmo]
  · rw [addXp_lastCheckInDate, hlast]
  · rw [addXp_checkInStreak, hstreak]
  · have h10 : (0 : Int) < 10 := by norm_num
    have := addXp_level_xp d s3 10 h10
    rw [this, hlevel, hxp]
    rfl

/-! ### Claim C10 -/

/-- C10: `calculateAverageMood` returns the number 0 on an empty
`moodHistory`, and otherwise the mean of the mapped mood values rendered
to 1 decimal place, where the mapping is
`{pessimo:1, ruim:2, neutro:3, bom:4, otimo:5, feliz:5}` and every
unknown label contributes 3 (treated as neutro). -/
theorem calculateAverageMood_spec (s : AppState) :
    (s.moodHistory = [] → calculateAverageMood s = 0) ∧
    (s.moodHistory ≠ [] →
      calculateAverageMood s =
        toFixed1 ((s.moodHistory.map (fun entry => moodValue entry.mood)).sum /
          (s.moodHistory.length : ℚ))) ∧
    moodValue "pessimo" = 1 ∧ moodValue "ruim" = 2 ∧ moodValue "neutro" = 3 ∧
    moodValue "bom" = 4 ∧ moodValue "otimo" = 5 ∧ moodValue "feliz" = 5 ∧
    (∀ m : String, m ∉ moodLabels → moodValue m = 3) := by
  refine ⟨fun h => by simp [calculateAverageMood, h],
    fun h => by simp [calculateAverageMood, h],
    by decide, by decide, by decide, by decide, by decide, by decide,
    fun m hm => ?_⟩
  unfold moodLabels at hm
  simp only [List.mem_cons, List.not_mem_nil, or_false, not_or] at hm
  obtain ⟨h1, h2, h3, h4, h5, h6⟩ := hm
  unfold moodValue moodMap
  simp [h1, h2, h3, h4, h5, h6]

/-- A document with one recorded mood. -/
def oneMoodState : AppState :=
  { freshState with moodHistory := [⟨"2024-01-01", "bom"⟩] }

/-- Witness for C10 on a document with one `bom` entry (average `4.0`). -/
theorem calculateAverageMood_spec_witness :
    calculateAverageMood oneMoodState =
      toFixed1 ((oneMoodState.moodHistory.map
          (fun entry => moodValue entry.mood)).sum /
        (oneMoodState.moodHistory.length : ℚ)) :=
  (calculateAverageMood_spec oneMoodState).2.1 (by decide)

/-! ### Claim C6 -/

/-- C6: trend detection over the trailing-7-entry mood window.  Fewer than
3 values give `insufficient_data`; otherwise the window is split at
`floor(n/2)` and the result is `stable` when the two halves' means differ
by less than 0.3 in absolute value, `improving` when the difference is
positive (and at least 0.3), `declining` otherwise; in particular the
all-ones sequence is `stable` with volatility (population standard
deviation) 0, `[1,1,1,5,5,5,5]` is `improving` and `[5,5,5,1,1,1,1]` is
`declining`. -/
theorem detectTrend_spec :
    (∀ v : List ℚ, v.length < 3 → detectTrend v = .insufficient_data) ∧
    (∀ v : List ℚ, 3 ≤ v.length →
      detectTrend v =
        (if abs (calculateAverage (v.drop (v.length / 2)) -
            calculateAverage (v.take (v.length / 2))) < 3 / 10 then .stable
         else if 0 < calculateAverage (v.drop (v.length / 2)) -
            calculateAverage (v.take (v.length / 2)) then .improving
         else .declining)) ∧
    detectTrend [1, 1, 1, 1, 1, 1, 1] = .stable ∧
    calculateStdDev [1, 1, 1, 1, 1, 1, 1] = 0 ∧
    detectTrend [1, 1, 1, 5, 5, 5, 5] = .improving ∧
    detectTrend [5, 5, 5, 1, 1, 1, 1] = .declining := by
  refine ⟨?_, ?_, ?_, ?_, ?_, ?_⟩
  · intro v h
    simp [detectTrend, h]
  · intro v h
    have h3 : ¬ v.length < 3 := by omega
    simp [detectTrend, h3]
  · simp [detectTrend, calculateAverage]
    norm_num
  · have hvar : squareDiffsMean [1, 1, 1, 1, 1, 1, 1] = 0 := by
      simp [squareDiffsMean, calculateAverage]
      norm_num
    unfold calculateStdDev
    rw [if_neg (by simp), hvar]
    simp
  · simp [detectTrend, calculateAverage]
    norm_num
  · simp [detectTrend, calculateAverage]
    norm_num

/-- Witness for C6, applying the short-input clause at `[1, 2]`. -/
theorem detectTrend_spec_witness :
    detectTrend [(1 : ℚ), 2] = .insufficient_data :=
  detectTrend_spec.1 [1, 2] (by norm_num)

/-! ### Claim C3 -/

/-- 667 goals of which 200 are completed: the exact completion rate
`200/667·100 ≈ 29.985` is below 30, but rounds to `30.0`. -/
def manyGoals : List Goal :=
  List.replicate 200 ⟨0, "g", true⟩ ++ List.replicate 467 ⟨0, "g", false⟩

/-- The document holding `manyGoals` (and no mood data). -/
def manyGoalsState : AppState := { freshState with goals := manyGoals }

/-- A one-challenge catalog (so the challenge-rate division is by a
nonzero count, as in the deployed configuration). -/
def oneChallengeCatalog : List Challenge := [⟨1, 10⟩]

/-- An engagement analysis with a running streak and a healthy engagement
rate (so the engagement-based recommendation does not fire). -/
def quietEngagement : EngagementAnalysis := ⟨1, 50⟩

set_option maxRecDepth 4000 in
theorem manyGoals_counts :
    (manyGoalsState.goals.filter (fun g => g.completed)).length = 200 ∧
    manyGoalsState.goals.length = 667 := by
  constructor
  · show (manyGoals.filter (fun g => g.completed)).length = 200
    rw [manyGoals, List.filter_append]
    simp [List.filter_replicate]
  · show manyGoals.length = 667
    rw [manyGoals]
    simp

/-- C3 as stated is false: the recommendation thresholds are compared
against the `toFixed(1)`-rounded display values, not the full-precision
ones.  With 200 of 667 goals completed the full-precision rate
`200/667·100 < 30`, goals exist, yet the rounded rate is `30.0`, so the
medium-priority `view_goals` recommendation is *not* generated (here the
whole recommendation list is empty). -/
theorem recommendations_rounding_counterexample :
    ((manyGoalsState.goals.filter (fun g => g.completed)).length : ℚ) /
        (manyGoalsState.goals.length : ℚ) * 100 < 30 ∧
    0 < manyGoalsState.goals.length ∧
    generateRecommendations (analyzeMoodPatterns manyGoalsState)
      (analyzeProductivity oneChallengeCatalog manyGoalsState)
      quietEngagement = [] := by
  obtain ⟨hfil, hlen⟩ := manyGoals_counts
  have hmood : analyzeMoodPatterns manyGoalsState =
      ⟨false, 0, .insufficient_data⟩ := rfl
  have hrate : (analyzeProductivity oneChallengeCatalog
      manyGoalsState).goalCompletionRate = 30 := by
    unfold analyzeProductivity
    dsimp only
    rw [hfil, hlen]
    norm_num [toFixed1]
  have htot : (analyzeProductivity oneChallengeCatalog
      manyGoalsState).totalGoals = 667 := by
    unfold analyzeProductivity
    exact hlen
  refine ⟨?_, ?_, ?_⟩
  · rw [hfil, hlen]
    norm_num
  · rw [hlen]
    norm_num
  · unfold generateRecommendations
    rw [hmood, hrate, htot]
    norm_num [quietEngagement]

/-- C3 (amended): the threshold comparisons driving the generated
recommendations and the productivity insights are evaluated on the values
*rounded to 1 decimal place* (the `toFixed(1)` display values, coerced
back to numbers by the comparison), not on the full-precision averages or
percentages: the high-priority recommendation fires iff mood data exists
and the *rounded* 7-day mean is < 3; the `view_goals` recommendation
fires iff the *rounded* goal completion rate is < 30 and goals exist; the
goal insights use the *rounded* rate against the < 30 and ≥ 70
thresholds.  Rounding therefore affects comparisons, not only display
strings.  (The mood window restriction to known labels reflects the
source's defaultless `moodMap` lookup, which NaN-poisons unknown labels.) -/
theorem thresholds_use_rounded_values (ch : List Challenge) (s : AppState)
    (e : EngagementAnalysis)
    (_hmoods : ∀ m ∈ s.moodHistory, m.mood ∈ moodLabels) :
    ((⟨"high", some "schedule_appointment"⟩ : Recommendation) ∈
        generateRecommendations (analyzeMoodPatterns s)
          (analyzeProductivity ch s) e ↔
      (analyzeMoodPatterns s).hasData ∧ (analyzeMoodPatterns s).avg7Days < 3) ∧
    ((⟨"medium", some "view_goals"⟩ : Recommendation) ∈
        generateRecommendations (analyzeMoodPatterns s)
          (analyzeProductivity ch s) e ↔
      (analyzeProductivity ch s).goalCompletionRate < 30 ∧
        0 < s.goals.length) ∧
    (0 < s.goals.length →
      (analyzeProductivity ch s).goalCompletionRate =
        toFixed1 (((s.goals.filter (fun g => g.completed)).length : ℚ) /
          (s.goals.length : ℚ) * 100)) ∧
    ((analyzeMoodPatterns s).hasData = true →
      (analyzeMoodPatterns s).avg7Days =
        toFixed1 (calculateAverage
          ((s.moodHistory.drop (s.moodHistory.length - 7)).map
            (fun m => moodValue m.mood)))) ∧
    ((⟨"positive", "trophy"⟩ : Insight) ∈ (analyzeProductivity ch s).insights ↔
      70 ≤ (analyzeProductivity ch s).goalCompletionRate) ∧
    ((⟨"info", "target"⟩ : Insight) ∈ (analyzeProductivity ch s).insights ↔
      (analyzeProductivity ch s).goalCompletionRate < 30) := by
  refine ⟨?_, ?_, ?_, ?_, ?_, ?_⟩
  · unfold generateRecommendations
    split_ifs <;> simp_all
  · have htot : (analyzeProductivity ch s).totalGoals = s.goals.length := rfl
    unfold generateRecommendations
    rw [htot]
    split_ifs <;> simp_all
  · intro h
    unfold analyzeProductivity
    dsimp only
    rw [if_pos h]
  · intro h
    unfold analyzeMoodPatterns at h ⊢
    by_cases h3 : s.moodHistory.length < 3
    · rw [if_pos h3] at h
      exact absurd h (by simp)
    · rw [if_neg h3]
  · unfold analyzeProductivity generateProductivityInsights
    dsimp only
    split_ifs <;> simp_all
  · unfold analyzeProductivity generateProductivityInsights
    dsimp only
    split_ifs <;> simp_all <;> linarith

/-- A document with one completed goal (rate `100.0`). -/
def oneGoalState : AppState := { freshState with goals := [⟨1, "g", true⟩] }

/-- Witness for C3's amended theorem: with one completed goal the rounded
rate equals `toFixed1(100)`. -/
theorem thresholds_use_rounded_values_witness :
    (analyzeProductivity oneChallengeCatalog oneGoalState).goalCompletionRate =
      toFixed1 (((oneGoalState.goals.filter (fun g => g.completed)).length : ℚ) /
        (oneGoalState.goals.length : ℚ) * 100) :=
  (thresholds_use_rounded_values oneChallengeCatalog oneGoalState
    quietEngagement (by simp [oneGoalState, freshState])).2.2.1 (by decide)

end SerPleno
